import Mathlib

/-
  Verification of the ClarityForge AI Engine subsystem.

  Shallow embedding of:
    - services/ai_engine_service/scripts/assistant/ai_engine/main.py
      (AIEngine.analyze_content and the per-type analysis helpers,
       _generate_recommendations, check_hf_api_health)
    - services/ai_engine_service/scripts/ai_engine/model.py
      (ErrorTracker, _hf_request)
    - services/ai_engine_service/main.py
      (health_check, _generate_health_indicators)

  Remote HTTP calls are modelled by oracles: an environment value records
  the outcome (returned value or raised-exception message) of each external
  call the Python code makes.  Python floats are modelled by rationals;
  wall-clock elapsed time is modelled as a given natural number of
  milliseconds.  Python exceptions are modelled with `Except String`.
-/

namespace ClarityForge

/-- Values stored in an analysis `results` dictionary: the Python code puts
either strings or lists of classification labels there. -/
inductive RVal where
  | s (v : String)
  | labels (v : List String)
  deriving DecidableEq, Repr

/-- Data model for analysis requests (`AnalysisRequest` in main.py).
`parameters` is opaque to the dispatcher and omitted. -/
structure AnalysisRequest where
  content : String
  analysis_type : String
  model : Option String
  deriving DecidableEq, Repr

/-- Data model for analysis results (`AnalysisResult` in main.py). -/
structure AnalysisResult where
  analysis_id : String
  results : List (String × RVal)
  confidence : ℚ
  recommendations : List String
  processing_time_ms : ℕ
  deriving DecidableEq, Repr

/-- Outcomes of the external calls one `analyze_content` run can make, plus
the generated uuid and the measured elapsed time. `gen` is the outcome of
`generate_response` on the constructed prompt (`.error m` models the call
raising an exception with message `m`); `cls` is the outcome of `classify`. -/
structure AnalyzeEnv where
  gen : Except String String
  cls : Except String (List String)
  analysis_id : String
  elapsed_ms : ℕ

/-- The keys of `AIEngine.supported_models`. -/
def supported_models : List String :=
  ["google/flan-t5-base", "facebook/bart-large-mnli"]

/-- The default model id used when the request does not name one. -/
def default_model : String := "google/flan-t5-base"

/-- Confidence heuristic of `_analyze_code_review`:
`min(0.95, max(0.6, len(response) / 500))`. -/
def code_review_confidence (n : ℕ) : ℚ :=
  min (0.95 : ℚ) (max (0.6 : ℚ) ((n : ℚ) / 500))

/-- Embeds `AIEngine._analyze_code_review`. -/
def analyze_code_review (model_id : String) (env : AnalyzeEnv) :
    Except String (List (String × RVal) × ℚ) :=
  match env.gen with
  | .error e => .error e
  | .ok response =>
      .ok ([("review", .s response),
            ("analysis_type", .s "code_review"),
            ("model_used", .s model_id)],
           code_review_confidence response.length)

/-- Embeds `AIEngine._analyze_requirements`. -/
def analyze_requirements (model_id : String) (env : AnalyzeEnv) :
    Except String (List (String × RVal) × ℚ) :=
  match env.gen with
  | .error e => .error e
  | .ok response =>
      match env.cls with
      | .error e => .error e
      | .ok classifications =>
          .ok ([("requirements", .s response),
                ("classifications", .labels classifications),
                ("analysis_type", .s "requirement_extraction"),
                ("model_used", .s model_id)],
               if classifications = [] then (0.6 : ℚ) else (0.8 : ℚ))

/-- Embeds `AIEngine._analyze_tech_recommendation`. -/
def analyze_tech_recommendation (model_id : String) (env : AnalyzeEnv) :
    Except String (List (String × RVal) × ℚ) :=
  match env.gen with
  | .error e => .error e
  | .ok response =>
      .ok ([("recommendations", .s response),
            ("analysis_type", .s "tech_recommendation"),
            ("model_used", .s model_id)],
           (0.75 : ℚ))

/-- Embeds `AIEngine._analyze_risk_assessment`. -/
def analyze_risk_assessment (model_id : String) (env : AnalyzeEnv) :
    Except String (List (String × RVal) × ℚ) :=
  match env.gen with
  | .error e => .error e
  | .ok response =>
      .ok ([("risk_assessment", .s response),
            ("analysis_type", .s "risk_assessment"),
            ("model_used", .s model_id)],
           (0.7 : ℚ))

/-- Embeds `AIEngine._default_analysis`. -/
def default_analysis (model_id : String) (env : AnalyzeEnv) :
    Except String (List (String × RVal) × ℚ) :=
  match env.gen with
  | .error e => .error e
  | .ok response =>
      .ok ([("generated_text", .s response),
            ("analysis_type", .s "general"),
            ("model_used", .s model_id)],
           (0.8 : ℚ))

/-- Embeds `AIEngine._generate_recommendations`: a static, analysis-type-keyed
list; the Python function ignores its `results` argument everywhere. -/
def generate_recommendations (results : List (String × RVal))
    (analysis_type : String) : List String :=
  if analysis_type = "code_review" then
    ["Consider implementing automated testing",
     "Review code documentation",
     "Ensure proper error handling"]
  else if analysis_type = "requirement_extraction" then
    ["Prioritize requirements by business value",
     "Validate requirements with stakeholders",
     "Consider technical feasibility"]
  else if analysis_type = "tech_recommendation" then
    ["Evaluate team expertise with recommended technologies",
     "Consider scalability requirements",
     "Assess maintenance and support costs"]
  else if analysis_type = "risk_assessment" then
    ["Develop contingency plans for high-risk items",
     "Regular risk assessment reviews",
     "Implement monitoring and alerting"]
  else
    []

/-- The body of the `try` block of `analyze_content`: model resolution and
validation, then dispatch on `analysis_type`.  A `.error m` result models an
exception with message `m` escaping the `try` block. -/
def analyzeBody (req : AnalysisRequest) (env : AnalyzeEnv) :
    Except String (List (String × RVal) × ℚ) :=
  let model_id := req.model.getD default_model
  if supported_models.contains model_id then
    if req.analysis_type = "code_review" then
      analyze_code_review model_id env
    else if req.analysis_type = "requirement_extraction" then
      analyze_requirements model_id env
    else if req.analysis_type = "tech_recommendation" then
      analyze_tech_recommendation model_id env
    else if req.analysis_type = "risk_assessment" then
      analyze_risk_assessment model_id env
    else
      default_analysis model_id env
  else
    .error ("Unsupported model: " ++ model_id)

/-- Embeds `AIEngine.analyze_content`: runs the body and converts any internal
exception into the degraded `AnalysisResult` built in the `except` branch. -/
def analyze_content (req : AnalysisRequest) (env : AnalyzeEnv) : AnalysisResult :=
  match analyzeBody req env with
  | .ok (results, confidence) =>
      { analysis_id := env.analysis_id
        results := results
        confidence := confidence
        recommendations := generate_recommendations results req.analysis_type
        processing_time_ms := env.elapsed_ms }
  | .error e =>
      { analysis_id := env.analysis_id
        results := [("error", .s e), ("status", .s "failed")]
        confidence := 0
        recommendations := ["Review input parameters and try again"]
        processing_time_ms := env.elapsed_ms }

/-! ### Error tracker (scripts/ai_engine/model.py, class ErrorTracker) -/

/-- One structured error event, as built at the top of
`ErrorTracker.track_error` (the free-form `context` map is opaque to every
property considered here and omitted). -/
structure ErrorEvent where
  timestamp : String
  error_type : String
  model_id : String
  error_message : String
  deriving DecidableEq, Repr

/-- The aggregation key `f"{error_type}:{model_id}"`. -/
def errorKey (e : ErrorEvent) : String := e.error_type ++ ":" ++ e.model_id

/-- The mutable state of an `ErrorTracker`: the counts dict (modelled as a
total function defaulting to 0, mirroring `error_counts.get(key, 0)`) and
the bounded history list. -/
structure TrackerState where
  error_counts : String → ℕ
  last_errors : List ErrorEvent

/-- The capacity bound `self.max_error_history = 100`. -/
def max_error_history : ℕ := 100

/-- The state set up by `ErrorTracker.__init__`. -/
def initialTracker : TrackerState :=
  { error_counts := fun _ => 0, last_errors := [] }

/-- The state update performed by `ErrorTracker.track_error`: append to
`last_errors`, `pop(0)` once when the length exceeds 100, then increment
`error_counts[f"{error_type}:{model_id}"]`. -/
def track_error (s : TrackerState) (e : ErrorEvent) : TrackerState :=
  let hist := s.last_errors ++ [e]
  { error_counts := fun k =>
      if k = errorKey e then s.error_counts k + 1 else s.error_counts k
    last_errors := if max_error_history < hist.length then hist.drop 1 else hist }

/-- A sequence of `track_error` calls in arrival order. -/
def trackAll (s : TrackerState) (evs : List ErrorEvent) : TrackerState :=
  evs.foldl track_error s

/-- The summary returned by `ErrorTracker.get_error_summary`. -/
structure ErrorSummary where
  total_errors : ℕ
  error_counts : String → ℕ
  recent_errors : List ErrorEvent

/-- Embeds `ErrorTracker.get_error_summary`: `total_errors` is the current history
length, `recent_errors` is `last_errors[-10:]`. -/
def get_error_summary (s : TrackerState) : ErrorSummary :=
  { total_errors := s.last_errors.length
    error_counts := s.error_counts
    recent_errors := s.last_errors.drop (s.last_errors.length - 10) }

/-- The error-rate bucket computed by `_generate_health_indicators` in
services/ai_engine_service/main.py from `total_errors`. -/
def error_rate_level (total_errors : ℕ) : String :=
  if total_errors = 0 then "none"
  else if total_errors < 10 then "low"
  else if total_errors < 50 then "medium"
  else "high"

/-! ### Side-channel notifications (ErrorTracker._send_to_monitoring /
_send_to_issue_tracker) -/

/-- Outcome of one `requests.post` call: a returned response with the given
status code, or a raised exception. -/
inductive PostOutcome where
  | ok (status : ℕ)
  | exc (msg : String)
  deriving DecidableEq, Repr

/-- Environment of one `track_error` call's side channels: the four
configuration variables read from `os.environ` and the outcome each POST
would have if performed. -/
structure SideEnv where
  monitoring_url : Option String
  monitoring_token : Option String
  issue_tracker_url : Option String
  issue_tracker_token : Option String
  monitoring_post : PostOutcome
  issue_post : PostOutcome

/-- Python truthiness of `os.environ.get(...)`: `None` and `""` are falsy. -/
def truthy (o : Option String) : Bool := o.getD "" != ""

/-- Embeds `ErrorTracker._send_to_issue_tracker`, reduced to whether the issue POST
is attempted.  `counts` is `self.error_counts` at call time (already
incremented for the current event).  The surrounding try/except swallows a
raising POST, so the function always returns. -/
def send_to_issue_tracker (counts : String → ℕ) (e : ErrorEvent)
    (env : SideEnv) : Bool :=
  if truthy env.issue_tracker_url && truthy env.issue_tracker_token then
    if 5 ≤ counts (errorKey e) ∨ e.error_type = "AUTH_ERROR" ∨
        e.error_type = "QUOTA_EXCEEDED" then
      true
    else false
  else false

/-- Embeds `ErrorTracker._send_to_monitoring`, reduced to which POSTs are attempted:
`(monitoring_attempted, issue_attempted)`.  The call to
`_send_to_issue_tracker` sits inside the monitoring try block, so a raising
monitoring POST jumps to the except handler and skips it. -/
def send_to_monitoring (counts : String → ℕ) (e : ErrorEvent)
    (env : SideEnv) : Bool × Bool :=
  if truthy env.monitoring_url && truthy env.monitoring_token then
    match env.monitoring_post with
    | .exc _ => (true, false)
    | .ok _ => (true, send_to_issue_tracker counts e env)
  else
    (false, send_to_issue_tracker counts e env)

/-- One full `track_error` call including its side channels: the updated
tracker state plus the two attempt flags.  The state transition is exactly
`track_error`, and the function is total: no side-channel outcome makes it
fail. -/
def track_error_full (s : TrackerState) (e : ErrorEvent) (env : SideEnv) :
    TrackerState × Bool × Bool :=
  let s' := track_error s e
  (s', send_to_monitoring s'.error_counts e env)

/-! ### Remote inference client (_hf_request in scripts/ai_engine/model.py) -/

/-- One HTTP response as the retry loop sees it: status code, `text` body,
and the value `response.json()` would return (kept abstract as a string). -/
structure HFResponse where
  status : ℕ
  body : String
  jsonBody : String
  deriving DecidableEq, Repr

/-- Result of `_hf_request`: the `ValueError` for a missing token, a parsed
200 body, the `requests.HTTPError` raised by `raise_for_status` (for a 4xx
or 5xx final status), the Python `None` returned when `raise_for_status`
does not raise, or the `NameError` hit when the loop never ran. -/
inductive HFOutcome where
  | configError (msg : String)
  | success (json : String)
  | httpError (status : ℕ) (body : String)
  | noneResult
  | nameError
  deriving DecidableEq, Repr

/-- Embeds `requests.Response.raise_for_status`: raises `HTTPError` exactly for
4xx/5xx status codes, otherwise returns (here: Python `None`). -/
def raise_for_status (r : HFResponse) : HFOutcome :=
  if 400 ≤ r.status ∧ r.status < 600 then .httpError r.status r.body
  else .noneResult

/-- The retry loop of `_hf_request`: `n` attempts remain, `i` attempts were
already made (`post j` is the response of the `j`-th POST).  Returns the
outcome and the total number of POSTs performed. -/
def hf_request_go (post : ℕ → HFResponse) : ℕ → ℕ → HFOutcome × ℕ
  | 0, i => (if i = 0 then .nameError else raise_for_status (post (i - 1)), i)
  | n + 1, i =>
      if (post i).status = 200 then (.success (post i).jsonBody, i + 1)
      else hf_request_go post n (i + 1)

/-- Embeds `_hf_request`: the token check (`if not hf_token`, so `None` and the
empty string both fail) happens before the loop, hence before any POST. -/
def hf_request (token : Option String) (post : ℕ → HFResponse)
    (retries : ℕ) : HFOutcome × ℕ :=
  if token.getD "" = "" then
    (.configError "HUGGINGFACE_API_TOKEN environment variable not set", 0)
  else hf_request_go post retries 0

/-! ### Health check (check_hf_api_health and /health) -/

/-- Outcome of the probe `_hf_request("google/flan-t5-base", {"inputs":
"test"}, retries=1)` as seen by `check_hf_api_health`: a normal return, a
raised `ValueError`, or any other raised exception. -/
inductive HFProbe where
  | ok (response_time_ms : ℕ)
  | valueErr (msg : String)
  | otherErr (msg : String)
  deriving DecidableEq, Repr

/-- One component entry of the health payload (extra fields such as
`response_time_ms` and `last_error` are irrelevant to the claims). -/
structure HealthComponent where
  status : String
  message : String
  deriving DecidableEq, Repr

/-- Embeds `AIEngine.check_hf_api_health`: healthy on success, unhealthy on
`ValueError` (missing token), degraded on any other exception. -/
def check_hf_api_health (probe : HFProbe) : HealthComponent :=
  match probe with
  | .ok _ => { status := "healthy",
               message := "HuggingFace API is accessible and responding" }
  | .valueErr _ => { status := "unhealthy",
                     message := "HuggingFace API configuration error" }
  | .otherErr _ => { status := "degraded",
                     message := "HuggingFace API connectivity issues" }

/-- The `/health` endpoint (`health_check` in services/ai_engine_service/
main.py): overall status and the three components, in insertion order.
`engine_ready` models `ai_engine is not None`; when it is false the method
calls on `None` raise `AttributeError`, which the per-component handlers
catch.  Each failing check escalates `overall_status` to "degraded" when it
was "healthy" and to "unhealthy" otherwise. -/
def health_check (engine_ready : Bool) (probe : HFProbe) :
    String × List (String × HealthComponent) :=
  let aiComp : HealthComponent :=
    if engine_ready then
      { status := "healthy", message := "AIEngine initialized and ready" }
    else
      { status := "unhealthy", message := "AIEngine not initialized" }
  let st1 : String := if engine_ready then "healthy" else "unhealthy"
  let hfComp : HealthComponent :=
    if engine_ready then check_hf_api_health probe
    else { status := "unhealthy",
           message := "HuggingFace API check failed: AttributeError" }
  let st2 : String :=
    if hfComp.status = "healthy" then st1
    else if st1 = "healthy" then "degraded" else "unhealthy"
  let modelsComp : HealthComponent :=
    if engine_ready then
      { status := "healthy", message := "2 models available" }
    else
      { status := "unhealthy",
        message := "Model availability check failed: AttributeError" }
  let st3 : String :=
    if engine_ready then st2
    else if st2 = "healthy" then "degraded" else "unhealthy"
  (st3, [("ai_engine", aiComp), ("huggingface_api", hfComp),
         ("models", modelsComp)])

/-- Modelled from the spec (§4.4): the aggregation the spec prescribes —
the worst component status under the ordering
healthy < degraded < unhealthy.  Used only to compare the spec's
aggregation rule with the one the code implements. -/
def specWorst (statuses : List String) : String :=
  if statuses.contains "unhealthy" then "unhealthy"
  else if statuses.contains "degraded" then "degraded"
  else "healthy"

/-! ### Basic facts about the confidence heuristics -/

lemma code_review_confidence_bounds (n : ℕ) :
    (0.6 : ℚ) ≤ code_review_confidence n ∧ code_review_confidence n ≤ 0.95 := by
  unfold code_review_confidence
  exact ⟨le_min (by norm_num) (le_max_left _ _), min_le_left _ _⟩

lemma code_review_confidence_mono {n m : ℕ} (h : n ≤ m) :
    code_review_confidence n ≤ code_review_confidence m := by
  unfold code_review_confidence
  refine min_le_min le_rfl (max_le_max le_rfl ?_)
  have hnm : (n : ℚ) ≤ (m : ℚ) := by exact_mod_cast h
  linarith

/-- Restates `code_review_confidence_bounds` with the literals in the normal form
`norm_num` produces. -/
lemma code_review_confidence_bounds' (n : ℕ) :
    3 / 5 ≤ code_review_confidence n ∧ code_review_confidence n ≤ 19 / 20 := by
  have h' := code_review_confidence_bounds n
  norm_num at h'
  exact h'

/-- Every confidence produced on the success path of `analyzeBody` lies in
[0.6, 0.95]. -/
lemma analyzeBody_ok_confidence {req : AnalysisRequest} {env : AnalyzeEnv}
    {r : List (String × RVal)} {c : ℚ}
    (h : analyzeBody req env = .ok (r, c)) :
    (0.6 : ℚ) ≤ c ∧ c ≤ 0.95 := by
  unfold analyzeBody analyze_code_review analyze_requirements
    analyze_tech_recommendation analyze_risk_assessment default_analysis at h
  cases hg : env.gen <;> cases hc : env.cls <;>
    simp only [hg, hc] at h <;> split_ifs at h <;>
    simp only [Except.ok.injEq, Prod.mk.injEq] at h
  all_goals (obtain ⟨-, rfl⟩ := h)
  all_goals (try norm_num)
  all_goals exact code_review_confidence_bounds' _

/-- C1: for every AnalysisRequest, analyze_content returns an AnalysisResult
and never raises to its caller (it is a total function into
`AnalysisResult`); the returned confidence lies in [0, 1] and
processing_time_ms is the measured elapsed time, a natural number (hence a
non-negative integer), on both the success path and the internal-failure
path. -/
theorem C1_analyze_content_total (req : AnalysisRequest) (env : AnalyzeEnv) :
    0 ≤ (analyze_content req env).confidence ∧
    (analyze_content req env).confidence ≤ 1 ∧
    (analyze_content req env).processing_time_ms = env.elapsed_ms := by
  unfold analyze_content
  cases hb : analyzeBody req env with
  | error e => exact ⟨le_refl 0, by norm_num, rfl⟩
  | ok p =>
      obtain ⟨r, c⟩ := p
      have hconf := analyzeBody_ok_confidence hb
      refine ⟨?_, ?_, rfl⟩
      · linarith [hconf.1]
      · linarith [hconf.2]

/-- C2: whenever the body of `analyze_content` raises internally (message
`e`), the returned degraded result has confidence 0, a results map whose
"error" key holds the original exception's message, and exactly the single
generic recommendation. -/
theorem C2_degraded_result (req : AnalysisRequest) (env : AnalyzeEnv)
    (e : String) (h : analyzeBody req env = .error e) :
    (analyze_content req env).confidence = 0 ∧
    (analyze_content req env).results =
      [("error", .s e), ("status", .s "failed")] ∧
    (analyze_content req env).results.lookup "error" = some (.s e) ∧
    (analyze_content req env).recommendations =
      ["Review input parameters and try again"] := by
  unfold analyze_content
  rw [h]
  exact ⟨rfl, rfl, rfl, rfl⟩

/-- A request naming a model that is not in the registry. -/
def reqBadModel : AnalysisRequest :=
  { content := "x", analysis_type := "code_review", model := some "bad/model" }

/-- An environment in which both remote calls would succeed. -/
def envOkGen : AnalyzeEnv :=
  { gen := .ok "resp", cls := .ok [], analysis_id := "id-1", elapsed_ms := 3 }

/-- C2 witness: the unsupported-model validation failure is an internal
exception, and the degraded result has the promised shape. -/
theorem C2_degraded_result_witness :
    (analyze_content reqBadModel envOkGen).confidence = 0 ∧
    (analyze_content reqBadModel envOkGen).results =
      [("error", .s "Unsupported model: bad/model"), ("status", .s "failed")] ∧
    (analyze_content reqBadModel envOkGen).results.lookup "error" =
      some (.s "Unsupported model: bad/model") ∧
    (analyze_content reqBadModel envOkGen).recommendations =
      ["Review input parameters and try again"] :=
  C2_degraded_result reqBadModel envOkGen "Unsupported model: bad/model" rfl

/-- C6: for every code_review analysis that succeeds, the returned
confidence equals min(0.95, max(0.6, len(response) / 500)); it is
monotonically non-decreasing in the response length, never below 0.6 and
never above 0.95; and a 12-character response yields confidence exactly
0.6. -/
theorem C6_code_review_confidence (req : AnalysisRequest) (env : AnalyzeEnv)
    (resp : String)
    (hty : req.analysis_type = "code_review")
    (hm : supported_models.contains (req.model.getD default_model) = true)
    (hg : env.gen = .ok resp) :
    (analyze_content req env).confidence = code_review_confidence resp.length ∧
    code_review_confidence resp.length =
      min (0.95 : ℚ) (max (0.6 : ℚ) ((resp.length : ℚ) / 500)) ∧
    (∀ n m : ℕ, n ≤ m →
      code_review_confidence n ≤ code_review_confidence m) ∧
    (∀ n : ℕ, (0.6 : ℚ) ≤ code_review_confidence n ∧
      code_review_confidence n ≤ 0.95) ∧
    code_review_confidence 12 = 0.6 := by
  refine ⟨?_, rfl, fun n m h => code_review_confidence_mono h,
    code_review_confidence_bounds, ?_⟩
  · have hm' : req.model.getD default_model ∈ supported_models := by
      simpa using hm
    unfold analyze_content analyzeBody analyze_code_review
    simp [hty, hm', hg]
  · unfold code_review_confidence
    rw [max_eq_left (by norm_num), min_eq_right (by norm_num)]

/-- The code-review scenario request from the spec. -/
def reqCR : AnalysisRequest :=
  { content := "def f(): pass", analysis_type := "code_review", model := none }

/-- An environment whose remote generation call returns "Looks fine.". -/
def envLF : AnalyzeEnv :=
  { gen := .ok "Looks fine.", cls := .ok [], analysis_id := "id-2",
    elapsed_ms := 1 }

/-- C6 witness: the spec's scenario — a mocked "Looks fine." response —
hits the 0.6 floor. -/
theorem C6_code_review_confidence_witness :
    (analyze_content reqCR envLF).confidence = 0.6 := by
  have h := C6_code_review_confidence reqCR envLF "Looks fine." rfl rfl rfl
  rw [h.1]
  have hlen : ("Looks fine." : String).length = 11 := rfl
  rw [hlen]
  unfold code_review_confidence
  rw [max_eq_left (by norm_num), min_eq_right (by norm_num)]

/-- C7: for every requirement_extraction analysis that succeeds, the
returned confidence is exactly 0.8 when the classification call returns at
least one label and exactly 0.6 when it returns an empty label list. -/
theorem C7_requirement_confidence (req : AnalysisRequest) (env : AnalyzeEnv)
    (resp : String) (ls : List String)
    (hty : req.analysis_type = "requirement_extraction")
    (hm : supported_models.contains (req.model.getD default_model) = true)
    (hg : env.gen = .ok resp) (hc : env.cls = .ok ls) :
    (ls ≠ [] → (analyze_content req env).confidence = 0.8) ∧
    (ls = [] → (analyze_content req env).confidence = 0.6) := by
  unfold analyze_content analyzeBody analyze_requirements
  simp only [hty, hm, hg, hc]
  constructor <;> intro hls <;> simp [hls]

/-- A request for requirement extraction on the default model. -/
def reqRE : AnalysisRequest :=
  { content := "the system shall log in users", analysis_type :=
      "requirement_extraction", model := none }

/-- An environment whose classification call returns one label. -/
def envOneLabel : AnalyzeEnv :=
  { gen := .ok "requirements list", cls := .ok ["tech support"],
    analysis_id := "id-3", elapsed_ms := 2 }

/-- C7 witness: one label yields confidence exactly 0.8. -/
theorem C7_requirement_confidence_witness :
    (analyze_content reqRE envOneLabel).confidence = 0.8 :=
  (C7_requirement_confidence reqRE envOneLabel "requirements list"
    ["tech support"] rfl rfl rfl rfl).1 (by decide)

/-- A request with the default/general analysis type. -/
def reqGen : AnalysisRequest :=
  { content := "hello", analysis_type := "general", model := none }

/-- C9 counterexample: a general/default analysis that succeeds (the body
returns ok) gets an empty recommendations list, not a list of exactly 3
canned strings. -/
theorem C9_counterexample :
    analyzeBody reqGen envOkGen =
      .ok ([("generated_text", .s "resp"), ("analysis_type", .s "general"),
            ("model_used", .s "google/flan-t5-base")], 0.8) ∧
    (analyze_content reqGen envOkGen).recommendations = [] ∧
    ¬ (analyze_content reqGen envOkGen).recommendations.length = 3 := by
  refine ⟨rfl, rfl, by decide⟩

/-- C9 amended: for every analysis that succeeds, the recommendations list
is the static analysis-type-keyed list (independent of the model output and
of the results dict); it has exactly 3 canned strings for each of the four
known analysis types, and is empty for every other analysis type (general
/default included). -/
theorem C9_amended_recommendations (req : AnalysisRequest) (env : AnalyzeEnv)
    (r : List (String × RVal)) (c : ℚ)
    (h : analyzeBody req env = .ok (r, c)) :
    (analyze_content req env).recommendations =
      generate_recommendations r req.analysis_type ∧
    (∀ res res' : List (String × RVal), ∀ t : String,
      generate_recommendations res t = generate_recommendations res' t) ∧
    (req.analysis_type = "code_review" ∨
     req.analysis_type = "requirement_extraction" ∨
     req.analysis_type = "tech_recommendation" ∨
     req.analysis_type = "risk_assessment" →
      (analyze_content req env).recommendations.length = 3) ∧
    (¬ (req.analysis_type = "code_review" ∨
        req.analysis_type = "requirement_extraction" ∨
        req.analysis_type = "tech_recommendation" ∨
        req.analysis_type = "risk_assessment") →
      (analyze_content req env).recommendations = []) := by
  have hres : (analyze_content req env).recommendations =
      generate_recommendations r req.analysis_type := by
    unfold analyze_content
    rw [h]
  refine ⟨hres, fun res res' t => rfl, ?_, ?_⟩
  · intro hty
    rw [hres]
    rcases hty with hty | hty | hty | hty <;>
      simp [generate_recommendations, hty]
  · intro hty
    push_neg at hty
    obtain ⟨h1, h2, h3, h4⟩ := hty
    rw [hres]
    simp [generate_recommendations, h1, h2, h3, h4]

/-- C9 amended witness: a successful general analysis produces the empty
recommendations list. -/
theorem C9_amended_recommendations_witness :
    (analyze_content reqGen envOkGen).recommendations = [] :=
  (C9_amended_recommendations reqGen envOkGen
    [("generated_text", .s "resp"), ("analysis_type", .s "general"),
     ("model_used", .s "google/flan-t5-base")] 0.8 rfl).2.2.2 (by decide)

/-! ### Error tracker invariants -/

lemma trackAll_nil (s : TrackerState) : trackAll s [] = s := rfl

lemma trackAll_cons (s : TrackerState) (e : ErrorEvent) (t : List ErrorEvent) :
    trackAll s (e :: t) = trackAll (track_error s e) t := rfl

/-- History characterization: a run of `track_error` calls leaves exactly
the suffix of all events (old history included) that fits in the 100-item
cap. -/
lemma trackAll_last_errors (evs : List ErrorEvent) :
    ∀ s : TrackerState, s.last_errors.length ≤ max_error_history →
      (trackAll s evs).last_errors =
        (s.last_errors ++ evs).drop
          (s.last_errors.length + evs.length - max_error_history) := by
  induction evs with
  | nil =>
      intro s hs
      rw [trackAll_nil, List.append_nil]
      have h0 : s.last_errors.length + ([] : List ErrorEvent).length -
          max_error_history = 0 := by
        simp only [List.length_nil]
        omega
      rw [h0, List.drop_zero]
  | cons e t ih =>
      intro s hs
      rw [trackAll_cons]
      by_cases hL : max_error_history < s.last_errors.length + 1
      · -- the history was full: the appended event evicts the oldest one
        have hfull : s.last_errors.length = max_error_history := by omega
        have hs' : (track_error s e).last_errors =
            (s.last_errors ++ [e]).drop 1 := by
          unfold track_error
          simp only [List.length_append, List.length_singleton]
          rw [if_pos (by simpa using hL)]
        have hlen' : (track_error s e).last_errors.length ≤
            max_error_history := by
          rw [hs', List.length_drop, List.length_append,
            List.length_singleton]
          omega
        rw [ih (track_error s e) hlen', hs']
        rw [List.length_drop, List.length_append, List.length_singleton]
        rw [← List.drop_append_of_le_length
          (by simp [List.length_append]), List.drop_drop]
        rw [List.append_assoc, List.singleton_append]
        congr 1
        simp only [List.length_cons]
        omega
      · -- room left: plain append
        have hs' : (track_error s e).last_errors = s.last_errors ++ [e] := by
          unfold track_error
          simp only [List.length_append, List.length_singleton]
          rw [if_neg (by simpa using hL)]
        have hlen' : (track_error s e).last_errors.length ≤
            max_error_history := by
          rw [hs', List.length_append, List.length_singleton]
          omega
        rw [ih (track_error s e) hlen', hs']
        rw [List.append_assoc, List.singleton_append]
        congr 1
        rw [List.length_append, List.length_singleton]
        simp only [List.length_cons]
        omega

/-- Counts characterization: each key's count grows by exactly the number
of tracked events carrying that key. -/
lemma trackAll_error_counts (evs : List ErrorEvent) :
    ∀ (s : TrackerState) (k : String),
      (trackAll s evs).error_counts k =
        s.error_counts k + evs.countP (fun e => errorKey e == k) := by
  induction evs with
  | nil => intro s k; rw [trackAll_nil]; simp
  | cons e t ih =>
      intro s k
      rw [trackAll_cons, ih]
      unfold track_error
      by_cases hk : k = errorKey e
      · simp only [List.countP_cons, hk, beq_self_eq_true, if_pos rfl]
        simp
        omega
      · have hne : (errorKey e == k) = false := by
          simp [beq_eq_false_iff_ne]
          exact fun hh => hk hh.symm
        simp only [List.countP_cons, hne, if_neg hk]
        simp

/-- Length corollary for runs starting from the initial tracker state. -/
lemma trackAll_length (evs : List ErrorEvent) :
    (trackAll initialTracker evs).last_errors.length =
      min evs.length max_error_history := by
  have h := trackAll_last_errors evs initialTracker
    (by simp [initialTracker, max_error_history])
  rw [show initialTracker.last_errors = [] from rfl] at h
  simp only [List.nil_append, List.length_nil, Nat.zero_add] at h
  rw [h, List.length_drop]
  omega

/-- C4: after any sequence of N track_error calls the history holds exactly
the min(N, 100) most recent events in arrival order (FIFO eviction), the
history length never exceeds 100 after any operation, and each key's count
equals the number of calls with that key and never decreases. -/
theorem C4_error_history_fifo (evs : List ErrorEvent) :
    (trackAll initialTracker evs).last_errors =
      evs.drop (evs.length - max_error_history) ∧
    (trackAll initialTracker evs).last_errors.length =
      min evs.length max_error_history ∧
    (∀ k : String, (trackAll initialTracker evs).error_counts k =
      evs.countP (fun e => errorKey e == k)) ∧
    (∀ (s : TrackerState) (e : ErrorEvent) (k : String),
      s.error_counts k ≤ (track_error s e).error_counts k) ∧
    (∀ (s : TrackerState) (e : ErrorEvent),
      s.last_errors.length ≤ max_error_history →
      (track_error s e).last_errors.length ≤ max_error_history) := by
  refine ⟨?_, trackAll_length evs, ?_, ?_, ?_⟩
  · have h := trackAll_last_errors evs initialTracker
      (by simp [initialTracker, max_error_history])
    simpa [initialTracker] using h
  · intro k
    have h := trackAll_error_counts evs initialTracker k
    simpa [initialTracker] using h
  · intro s e k
    unfold track_error
    by_cases hk : k = errorKey e <;> simp [hk]
  · intro s e hs
    unfold track_error
    by_cases hL : max_error_history < s.last_errors.length + 1
    · simp only [List.length_append, List.length_singleton]
      rw [if_pos (by simpa using hL)]
      rw [List.length_drop, List.length_append, List.length_singleton]
      omega
    · simp only [List.length_append, List.length_singleton]
      rw [if_neg (by simpa using hL)]
      rw [List.length_append, List.length_singleton]
      omega

/-- A sample error event. -/
def evA : ErrorEvent :=
  { timestamp := "t0", error_type := "HTTP_ERROR",
    model_id := "google/flan-t5-base", error_message := "HTTP 500" }

/-- C4 witness: after 150 identical events the history holds exactly the
100 most recent ones and the count reads 150. -/
theorem C4_error_history_fifo_witness :
    (trackAll initialTracker (List.replicate 150 evA)).last_errors.length =
      100 ∧
    (trackAll initialTracker (List.replicate 150 evA)).error_counts
      (errorKey evA) = 150 := by
  have h := C4_error_history_fifo (List.replicate 150 evA)
  constructor
  · rw [h.2.1]
    simp [max_error_history]
  · rw [h.2.2.1 (errorKey evA)]
    simp

/-- C10: the summary's total_errors always equals the current history
length, hence is capped at 100 and stops growing once more than 100 errors
have been tracked, while per-key counts keep increasing; the error-rate
bucket is therefore computed from at most 100 errors, "high" (≥ 50) is
still reachable, and totals above 100 are never reported. -/
theorem C10_total_errors_capped (evs : List ErrorEvent) :
    (∀ s : TrackerState,
      (get_error_summary s).total_errors = s.last_errors.length) ∧
    (get_error_summary (trackAll initialTracker evs)).total_errors =
      min evs.length max_error_history ∧
    (get_error_summary (trackAll initialTracker evs)).total_errors ≤ 100 ∧
    (∀ k : String,
      (get_error_summary (trackAll initialTracker evs)).error_counts k =
        evs.countP (fun e => errorKey e == k)) ∧
    (100 ≤ evs.length →
      (get_error_summary (trackAll initialTracker evs)).total_errors = 100) ∧
    error_rate_level
      (get_error_summary
        (trackAll initialTracker (List.replicate 50 evA))).total_errors =
      "high" := by
  have htot : ∀ s : TrackerState,
      (get_error_summary s).total_errors = s.last_errors.length :=
    fun s => rfl
  refine ⟨htot, ?_, ?_, ?_, ?_, ?_⟩
  · rw [htot, trackAll_length]
  · rw [htot, trackAll_length]
    simp [max_error_history]
  · intro k
    have h := trackAll_error_counts evs initialTracker k
    simpa [get_error_summary, initialTracker] using h
  · intro hlen
    rw [htot, trackAll_length]
    simp only [max_error_history]
    omega
  · rw [htot, trackAll_length]
    simp [max_error_history, error_rate_level]

/-! ### Remote inference client: retry loop facts -/

lemma hf_request_go_count (post : ℕ → HFResponse) (n : ℕ) :
    ∀ i : ℕ, (hf_request_go post n i).2 ≤ i + n := by
  induction n with
  | zero => intro i; simp [hf_request_go]
  | succ m ih =>
      intro i
      unfold hf_request_go
      by_cases h : (post i).status = 200
      · rw [if_pos h]
        omega
      · rw [if_neg h]
        have := ih (i + 1)
        omega

lemma hf_request_go_success (post : ℕ → HFResponse) (n : ℕ) :
    ∀ (j i : ℕ), j < n → (post (i + j)).status = 200 →
      (∀ j', j' < j → (post (i + j')).status ≠ 200) →
      hf_request_go post n i =
        (.success (post (i + j)).jsonBody, i + j + 1) := by
  induction n with
  | zero => intro j i hj _ _; exact absurd hj (Nat.not_lt_zero j)
  | succ m ih =>
      intro j i hj h200 hprev
      unfold hf_request_go
      cases j with
      | zero =>
          rw [Nat.add_zero] at h200
          simp [h200]
      | succ j' =>
          have hne : (post i).status ≠ 200 := by
            have h0 := hprev 0 (Nat.succ_pos j')
            rwa [Nat.add_zero] at h0
          simp only [if_neg hne]
          have heq : i + 1 + j' = i + (j' + 1) := by omega
          have h200' : (post (i + 1 + j')).status = 200 := by
            rw [heq]; exact h200
          have hprev' : ∀ j'', j'' < j' →
              (post (i + 1 + j'')).status ≠ 200 := by
            intro j'' hj''
            have := hprev (j'' + 1) (by omega)
            rwa [show i + (j'' + 1) = i + 1 + j'' by omega] at this
          rw [ih j' (i + 1) (by omega) h200' hprev']
          rw [heq]

lemma hf_request_go_exhaust (post : ℕ → HFResponse) (n : ℕ) :
    ∀ i : ℕ, 1 ≤ n → (∀ j, j < n → (post (i + j)).status ≠ 200) →
      hf_request_go post n i =
        (raise_for_status (post (i + n - 1)), i + n) := by
  induction n with
  | zero => intro i h1 _; exact absurd h1 (by omega)
  | succ m ih =>
      intro i _ hall
      have hne : (post i).status ≠ 200 := by
        have h0 := hall 0 (by omega)
        rwa [Nat.add_zero] at h0
      unfold hf_request_go
      simp only [if_neg hne]
      cases m with
      | zero => simp [hf_request_go]
      | succ m' =>
          have hall' : ∀ j, j < m' + 1 →
              (post (i + 1 + j)).status ≠ 200 := by
            intro j hj
            have := hall (j + 1) (by omega)
            rwa [show i + (j + 1) = i + 1 + j by omega] at this
          rw [ih (i + 1) (by omega) hall']
          rw [show i + 1 + (m' + 1) - 1 = i + (m' + 1 + 1) - 1 by omega,
            show i + 1 + (m' + 1) = i + (m' + 1 + 1) by omega]

/-- A POST oracle that always answers 204 No Content. -/
def post204 : ℕ → HFResponse := fun _ =>
  { status := 204, body := "", jsonBody := "" }

/-- C5 counterexample: with a token present and every attempt answering a
non-200, non-4xx/5xx status (204), the function does not fail with an
HTTP-error condition after exhausting its attempts — `raise_for_status`
raises only for 4xx/5xx, so the Python function falls through and returns
None. -/
theorem C5_counterexample :
    (hf_request (some "tok") post204 3).1 = HFOutcome.noneResult ∧
    ∀ st : ℕ, ∀ bd : String,
      (hf_request (some "tok") post204 3).1 ≠ HFOutcome.httpError st bd := by
  constructor
  · rfl
  · intro st bd h
    rw [show (hf_request (some "tok") post204 3).1 = HFOutcome.noneResult
      from rfl] at h
    exact HFOutcome.noConfusion h

/-- C5 amended: if the auth token is absent or empty the call fails with
the configuration error before any POST; otherwise it performs at most
`retries` POST attempts, returns the parsed body of the first attempt whose
status is 200, and after exhausting all attempts without a 200 it fails
with an HTTP error carrying the last response's status code and body when
that last status is a 4xx/5xx — for a non-200 status outside 4xx/5xx it
instead returns None (`raise_for_status` does not raise there). -/
theorem C5_amended_hf_request (token : Option String) (post : ℕ → HFResponse)
    (retries : ℕ) :
    (token.getD "" = "" →
      hf_request token post retries =
        (.configError "HUGGINGFACE_API_TOKEN environment variable not set",
         0)) ∧
    (hf_request token post retries).2 ≤ retries ∧
    (∀ i : ℕ, token.getD "" ≠ "" → i < retries →
      (post i).status = 200 → (∀ j, j < i → (post j).status ≠ 200) →
      hf_request token post retries =
        (.success (post i).jsonBody, i + 1)) ∧
    (token.getD "" ≠ "" → 1 ≤ retries →
      (∀ j, j < retries → (post j).status ≠ 200) →
      hf_request token post retries =
        (raise_for_status (post (retries - 1)), retries) ∧
      (400 ≤ (post (retries - 1)).status ∧ (post (retries - 1)).status < 600 →
        (hf_request token post retries).1 =
          .httpError (post (retries - 1)).status (post (retries - 1)).body) ∧
      (¬ (400 ≤ (post (retries - 1)).status ∧
          (post (retries - 1)).status < 600) →
        (hf_request token post retries).1 = .noneResult)) := by
  refine ⟨?_, ?_, ?_, ?_⟩
  · intro h
    unfold hf_request
    rw [if_pos h]
  · unfold hf_request
    by_cases h : token.getD "" = ""
    · rw [if_pos h]; omega
    · rw [if_neg h]
      have := hf_request_go_count post retries 0
      omega
  · intro i htok hi h200 hprev
    unfold hf_request
    rw [if_neg htok]
    have hs := hf_request_go_success post retries i 0 hi
      (by rwa [Nat.zero_add]) (by intro j' hj'; rw [Nat.zero_add]
                                  exact hprev j' hj')
    rw [hs, Nat.zero_add]
  · intro htok hret hall
    have he : hf_request token post retries =
        (raise_for_status (post (retries - 1)), retries) := by
      unfold hf_request
      rw [if_neg htok]
      have hs := hf_request_go_exhaust post retries 0 hret
        (by intro j hj; rw [Nat.zero_add]; exact hall j hj)
      rwa [Nat.zero_add] at hs
    refine ⟨he, ?_, ?_⟩
    · intro hrange
      rw [he]
      unfold raise_for_status
      rw [if_pos hrange]
    · intro hrange
      rw [he]
      unfold raise_for_status
      rw [if_neg hrange]

/-- A POST oracle answering 500 then 503. -/
def postW : ℕ → HFResponse := fun i =>
  if i = 0 then { status := 500, body := "err", jsonBody := "" }
  else { status := 503, body := "svc", jsonBody := "" }

/-- C5 amended witness: two failing attempts with 4xx/5xx statuses end in
the HTTP error carrying the last response's status and body. -/
theorem C5_amended_hf_request_witness :
    (hf_request (some "tok") postW 2).1 = HFOutcome.httpError 503 "svc" := by
  have h := (C5_amended_hf_request (some "tok") postW 2).2.2.2
    (by decide) (by decide)
    (by intro j hj
        interval_cases j <;> decide)
  have h2 := h.2.1 (by decide)
  exact h2

/-! ### Side-channel notification claims -/

/-- A side-channel environment where all four endpoints are configured and
the monitoring POST raises an exception. -/
def envMonExc : SideEnv :=
  { monitoring_url := some "http://mon", monitoring_token := some "mtok",
    issue_tracker_url := some "http://issues",
    issue_tracker_token := some "itok",
    monitoring_post := .exc "boom", issue_post := .ok 201 }

/-- The tracker state after four identical errors. -/
def sFour : TrackerState := trackAll initialTracker (List.replicate 4 evA)

/-- C8 counterexample: issue-tracker configuration is present, the
cumulative count for the event's key reaches 5, yet no ticket creation is
attempted — the raising monitoring POST jumps to the except handler before
`_send_to_issue_tracker` is reached. -/
theorem C8_counterexample :
    truthy envMonExc.issue_tracker_url = true ∧
    truthy envMonExc.issue_tracker_token = true ∧
    5 ≤ (track_error sFour evA).error_counts (errorKey evA) ∧
    send_to_issue_tracker (track_error sFour evA).error_counts evA
      envMonExc = true ∧
    (track_error_full sFour evA envMonExc).2.2 = false := by
  refine ⟨rfl, rfl, by decide, by decide, rfl⟩

/-- C8 amended: with issue-tracker configuration present, a ticket creation
is attempted iff the cumulative count for the event's key has reached 5 or
the error type is AUTH_ERROR/QUOTA_EXCEEDED, AND the monitoring webhook did
not itself raise while configured (a raising monitoring POST skips the
ticket path); side-channel outcomes never change the tracker state the
caller observes. -/
theorem C8_amended_issue_tracker (s : TrackerState) (e : ErrorEvent)
    (env : SideEnv)
    (hcfg : (truthy env.issue_tracker_url &&
             truthy env.issue_tracker_token) = true) :
    (track_error_full s e env).1 = track_error s e ∧
    ((track_error_full s e env).2.2 = true ↔
      ((5 ≤ (track_error s e).error_counts (errorKey e) ∨
        e.error_type = "AUTH_ERROR" ∨ e.error_type = "QUOTA_EXCEEDED") ∧
       ¬ ((truthy env.monitoring_url && truthy env.monitoring_token) = true ∧
          ∃ m : String, env.monitoring_post = .exc m))) := by
  constructor
  · rfl
  · unfold track_error_full send_to_monitoring send_to_issue_tracker
    by_cases hm : (truthy env.monitoring_url &&
        truthy env.monitoring_token) = true
    · cases hp : env.monitoring_post with
      | exc m => simp [hm, hp]
      | ok st =>
          simp only [hm, hp, if_pos]
          simp [hcfg]
    · simp only [hm]
      simp [hcfg, hm]

/-- C8 amended witness: with issue config present, no monitoring endpoint
configured, and the count at 5, the ticket creation is attempted. -/
def envIssueOnly : SideEnv :=
  { monitoring_url := none, monitoring_token := none,
    issue_tracker_url := some "http://issues",
    issue_tracker_token := some "itok",
    monitoring_post := .ok 200, issue_post := .ok 201 }

theorem C8_amended_issue_tracker_witness :
    (track_error_full sFour evA envIssueOnly).1 = track_error sFour evA ∧
    (track_error_full sFour evA envIssueOnly).2.2 = true := by
  have h := C8_amended_issue_tracker sFour evA envIssueOnly rfl
  refine ⟨h.1, h.2.mpr ⟨by left; decide, ?_⟩⟩
  intro hcontra
  exact absurd hcontra.1 (by decide)

/-! ### Health aggregation claims -/

/-- C3 counterexample: engine initialized, auth token missing — the probe
component reports "unhealthy" but the overall status is "degraded", not
"unhealthy", contradicting worst-of aggregation. -/
theorem C3_counterexample :
    (check_hf_api_health
      (.valueErr "HUGGINGFACE_API_TOKEN environment variable not set")
        ).status = "unhealthy" ∧
    (health_check true
      (.valueErr "HUGGINGFACE_API_TOKEN environment variable not set")
        ).1 = "degraded" ∧
    ¬ (health_check true
      (.valueErr "HUGGINGFACE_API_TOKEN environment variable not set")
        ).1 = "unhealthy" ∧
    specWorst ((health_check true
      (.valueErr "HUGGINGFACE_API_TOKEN environment variable not set")
        ).2.map (fun p => p.2.status)) = "unhealthy" := by
  exact ⟨rfl, rfl, by decide, rfl⟩

/-- C3 amended: the overall status is computed by stepwise escalation, not
by worst-of. With the engine initialized, the overall status is "healthy"
when the probe component is healthy and "degraded" for ANY non-healthy
probe component — in particular a missing auth token yields probe component
"unhealthy" under the key "huggingface_api" while the overall status is
"degraded". -/
theorem C3_amended_health_aggregation (probe : HFProbe) (msg : String) :
    (health_check true probe).1 =
      (if (check_hf_api_health probe).status = "healthy" then "healthy"
       else "degraded") ∧
    (check_hf_api_health (.valueErr msg)).status = "unhealthy" ∧
    (health_check true (.valueErr msg)).1 = "degraded" ∧
    (health_check true (.valueErr msg)).2.lookup "huggingface_api" =
      some (check_hf_api_health (.valueErr msg)) := by
  refine ⟨?_, rfl, rfl, rfl⟩
  cases probe <;> rfl

/-- C10 witness: after 150 tracked errors the reported total is exactly
100 — it stopped growing at the cap. -/
theorem C10_total_errors_capped_witness :
    (get_error_summary
      (trackAll initialTracker (List.replicate 150 evA))).total_errors =
      100 := by
  have h := C10_total_errors_capped (List.replicate 150 evA)
  exact h.2.2.2.2.1 (by simp)

end ClarityForge
